import Mathlib

/-!
Shallow embedding of `src/libstd/sys/common/net.rs`: the platform-neutral
socket shim of the Rust standard library.  OS structures (`sockaddr_in`,
`sockaddr_in6`, `sockaddr_storage`) are modelled at the byte level as
`List Nat` (each element one byte); syscall outcomes are supplied as
explicit inputs, since the kernel is outside the program.  Rust `panic!`
and failed `assert!` are modelled as a third outcome next to `Ok`/`Err`.
-/

namespace Net

/-- Error kinds of `io::ErrorKind` that the module distinguishes. -/
inductive ErrorKind where
  | invalidInput
  | interrupted
  | other
  deriving DecidableEq, Repr

/-- Modelled from the spec: the uniform error surface. `simple` is
`io::Error::new(kind, msg)`; `os` is `Error::from_raw_os_error(errno)`
as produced by `cvt`; `gai` is the resolver-specific error mapping
produced by `cvt_gai`, distinct from generic I/O errors. -/
inductive IOError where
  | simple (kind : ErrorKind) (msg : String)
  | os (errno : Nat)
  | gai (code : Int)
  deriving DecidableEq, Repr

/-- POSIX `EINTR`: the interrupted-syscall errno. -/
def EINTR : Nat := 4

/-- Modelled from the spec: the errno-to-kind categorisation used by
`io::Error::kind()` ("an OS-errno-derived error plus a categorized
kind").  Only the kinds this module's claims mention are distinguished. -/
def IOError.kind : IOError → ErrorKind
  | .simple k _ => k
  | .os e => if e = EINTR then .interrupted else .other
  | .gai _ => .other

/-- Result of a Rust computation that can also abort the thread
(`assert!` failure / panic): `ok`, `err`, or `panicked`. -/
inductive Outcome (α : Type) where
  | ok (a : α)
  | err (e : IOError)
  | panicked
  deriving DecidableEq, Repr

/-- `try!` sequencing on `Outcome`. -/
def Outcome.bind {α β : Type} : Outcome α → (α → Outcome β) → Outcome β
  | .ok a, f => f a
  | .err e, _ => .err e
  | .panicked, _ => .panicked

def Outcome.isOk {α : Type} : Outcome α → Bool
  | .ok _ => true
  | _ => false

/-! ### Byte-level sockaddr model

A `sockaddr_storage` buffer is a `List Nat` of bytes; reads beyond the
list's end see the zero initialisation of the storage (`mem::zeroed()`),
hence `getD _ 0`. -/

/-- Read one byte of a storage buffer (zero beyond the end). -/
def get8 (s : List Nat) (i : Nat) : Nat := s.getD i 0

/-- Read a 16-bit field stored in network byte order (big endian), as
`ntohs` does for `sin_port` / `sin6_port`. -/
def get16be (s : List Nat) (i : Nat) : Nat := 256 * get8 s i + get8 s (i + 1)

/-- Read a 32-bit field stored in host (little-endian) byte order, as
`sin6_flowinfo` / `sin6_scope_id` are read directly from memory. -/
def get32le (s : List Nat) (i : Nat) : Nat :=
  get8 s i + 256 * get8 s (i + 1) + 65536 * get8 s (i + 2) +
    16777216 * get8 s (i + 3)

/-- `libc::AF_INET` (Linux value). -/
def AF_INET : Nat := 2
/-- `libc::AF_INET6` (Linux value). -/
def AF_INET6 : Nat := 10

/-- `mem::size_of::<libc::sockaddr_in>()`. -/
def sizeof_sockaddr_in : Nat := 16
/-- `mem::size_of::<libc::sockaddr_in6>()`. -/
def sizeof_sockaddr_in6 : Nat := 28

/-- `ss_family`: the leading 16-bit address-family tag of a
`sockaddr_storage`, stored in host byte order. -/
def ss_family (s : List Nat) : Nat := get8 s 0 + 256 * get8 s 1

/-- `net::SocketAddr`: the tagged union over IPv4/IPv6 endpoints.
`v4` carries the four address octets and the port; `v6` carries the
sixteen address bytes, the port, `flowinfo` and `scope_id`. -/
inductive SocketAddr where
  | v4 (a b c d : Nat) (port : Nat)
  | v6 (addr : List Nat) (port flowinfo scope_id : Nat)
  deriving DecidableEq, Repr

/-- A well-formed socket address: every field fits its wire width. -/
def isValidSockAddr : SocketAddr → Bool
  | .v4 a b c d port =>
      a < 256 && b < 256 && c < 256 && d < 256 && port < 65536
  | .v6 addr port flowinfo scope_id =>
      addr.length = 16 && addr.all (· < 256) && port < 65536 &&
        flowinfo < 4294967296 && scope_id < 4294967296

/-- Modelled from the spec: `FromInner::from_inner` for `sockaddr_in`
("address family tag + port + address bytes"): port at offset 2 in
network order, the four address octets at offsets 4..8. -/
def decode_sockaddr_in (s : List Nat) : SocketAddr :=
  .v4 (get8 s 4) (get8 s 5) (get8 s 6) (get8 s 7) (get16be s 2)

/-- Modelled from the spec: `FromInner::from_inner` for `sockaddr_in6`:
port at offset 2 (network order), `flowinfo` at 4, the sixteen address
bytes at 8..24, `scope_id` at 24. -/
def decode_sockaddr_in6 (s : List Nat) : SocketAddr :=
  .v6 ((List.range 16).map fun i => get8 s (8 + i))
    (get16be s 2) (get32le s 4) (get32le s 24)

/-- Modelled from the spec: `SocketAddr::into_inner`, the encoder into
the OS binary layout; inverse layout of the decoders above. -/
def encodeSockaddr : SocketAddr → List Nat
  | .v4 a b c d port =>
      [AF_INET % 256, AF_INET / 256, port / 256, port % 256,
       a, b, c, d, 0, 0, 0, 0, 0, 0, 0, 0]
  | .v6 addr port flowinfo scope_id =>
      [AF_INET6 % 256, AF_INET6 / 256, port / 256, port % 256,
       flowinfo % 256, flowinfo / 256 % 256, flowinfo / 65536 % 256,
       flowinfo / 16777216] ++ addr ++
      [scope_id % 256, scope_id / 256 % 256, scope_id / 65536 % 256,
       scope_id / 16777216]

/-- The length returned alongside the encoding by `into_inner`:
`size_of` of the structure for the address family. -/
def encodeLen : SocketAddr → Nat
  | .v4 _ _ _ _ _ => sizeof_sockaddr_in
  | .v6 _ _ _ _ => sizeof_sockaddr_in6

/-- `sockaddr_to_addr` (net.rs lines 63-82): dispatch on `ss_family`;
for `AF_INET`/`AF_INET6` first `assert!(len >= size_of::<..>())`
(failure panics, modelled `panicked`), then reinterpret the storage as
the family's structure; any other family is an invalid-input error. -/
def sockaddr_to_addr (storage : List Nat) (len : Nat) : Outcome SocketAddr :=
  if ss_family storage = AF_INET then
    if sizeof_sockaddr_in ≤ len then .ok (decode_sockaddr_in storage)
    else .panicked
  else if ss_family storage = AF_INET6 then
    if sizeof_sockaddr_in6 ≤ len then .ok (decode_sockaddr_in6 storage)
    else .panicked
  else .err (.simple .invalidInput "invalid argument")

/-! ### Syscall model

The kernel is outside the program: each raw syscall invocation's result
is an explicit input.  `SysRet.ok n` is a non-negative return value,
`SysRet.fail errno` a `-1` return with the given `errno`. -/

inductive SysRet where
  | ok (n : Int)
  | fail (errno : Nat)
  deriving DecidableEq, Repr

/-- Modelled from the spec: `cvt`, the generic "convert OS return code
to success/error" helper — a failing return becomes an errno-derived
error, with no retry of any kind. -/
def cvt : SysRet → Except IOError Int
  | .ok n => .ok n
  | .fail e => .error (.os e)

/-- Modelled from the spec: `cvt_r`, the retrying variant — "interrupted
syscalls are transparently retried until they succeed or fail for
another reason".  The list holds the results of the successive
invocations; `none` means the supplied trace was exhausted while still
interrupted (the real loop would keep retrying). -/
def cvt_r : List SysRet → Option (Except IOError Int)
  | [] => none
  | r :: rest =>
    match cvt r with
    | .error e => if e.kind = .interrupted then cvt_r rest else some (.error e)
    | .ok n => some (.ok n)

/-- An OS socket handle (file descriptor). -/
def Socket := Nat
deriving instance DecidableEq, Repr for Socket

/-! ### getsockopt (net.rs lines 39-50) -/

/-- `getsockopt::<T>`: the syscall result, the length the OS wrote back
and the value it stored are inputs.  On syscall success the code runs
`assert_eq!(len as usize, mem::size_of::<T>())` — a mismatch panics —
and otherwise returns `Ok(slot)`. -/
def getsockopt (sizeofT : Nat) (callRet : SysRet) (lenAfter : Nat)
    (slotAfter : Int) : Outcome Int :=
  match cvt callRet with
  | .error e => .err e
  | .ok _ => if lenAfter = sizeofT then .ok slotAfter else .panicked

/-! ### Host resolution: LookupHost (net.rs lines 95-132) -/

/-- One `libc::addrinfo` node: its `ai_addr` buffer and `ai_addrlen`.
The `ai_next` chain is the list structure itself. -/
structure AddrInfoEnt where
  ai_addr : List Nat
  ai_addrlen : Nat
  deriving DecidableEq, Repr

/-- `LookupHost`: `original` is the head pointer of the OS-allocated
`addrinfo` list (kept for `freeaddrinfo`), `cur` the iteration cursor,
both modelled as the list reachable from the pointer. -/
structure LookupHost where
  original : List AddrInfoEnt
  cur : List AddrInfoEnt
  deriving DecidableEq, Repr

/-- `LookupHost::next` (net.rs lines 102-110): `None` when the cursor is
null; otherwise decode the current node's sockaddr, advance the cursor
to `ai_next` unconditionally, and yield the decode result. -/
def LookupHost.next (lh : LookupHost) :
    Option (Outcome SocketAddr) × LookupHost :=
  match lh.cur with
  | [] => (none, lh)
  | e :: rest =>
    (some (sockaddr_to_addr e.ai_addr e.ai_addrlen), ⟨lh.original, rest⟩)

/-- Apply `next` `n` times, keeping only the state. -/
def LookupHost.iterate : Nat → LookupHost → LookupHost
  | 0, lh => lh
  | n + 1, lh => LookupHost.iterate n lh.next.2

/-- Collect the elements yielded by repeatedly calling `next`, with
enough fuel to reach exhaustion. -/
def LookupHost.collectFuel : Nat → LookupHost → List (Outcome SocketAddr)
  | 0, _ => []
  | n + 1, lh =>
    match lh.next with
    | (none, _) => []
    | (some r, lh2) => r :: LookupHost.collectFuel n lh2

/-- All elements of the sequence, from the current cursor on. -/
def LookupHost.collect (lh : LookupHost) : List (Outcome SocketAddr) :=
  LookupHost.collectFuel lh.cur.length lh

/-- `Drop for LookupHost` (net.rs lines 116-120): the destructor calls
`freeaddrinfo(self.original)` — the value returned here is the list
released to the OS by the (single) drop. -/
def LookupHost.dropFrees (lh : LookupHost) : List AddrInfoEnt := lh.original

/-! ### Reverse lookup: lookup_addr (net.rs lines 145-167) -/

/-- `NI_MAXHOST` (net.rs line 145). -/
def NI_MAXHOST : Nat := 1025

/-- Outcome of the `getnameinfo` syscall: a resolver error code, or the
bytes it wrote at the start of the host buffer. -/
inductive GaiRet where
  | fail (code : Int)
  | ok (written : List Nat)
  deriving DecidableEq, Repr

/-- Modelled from the spec: `cvt_gai`, the DNS-specific variant of the
return-code converter, mapping resolver error codes to resolver-specific
errors. -/
def cvt_gai (code : Int) : IOError := .gai code

/-- The `hostbuf` array after the call: `NI_MAXHOST` bytes, initialised
to zero, with the written bytes at the front. -/
def hostbufAfter (written : List Nat) : List Nat :=
  (written ++ List.replicate NI_MAXHOST 0).take NI_MAXHOST

/-- `CStr::from_ptr(..).to_bytes()`: the bytes up to the first NUL. -/
def cstrBytes (buf : List Nat) : List Nat := buf.takeWhile (· ≠ 0)

/-- Is a continuation byte (`0x80..=0xBF`)? -/
def isCont (b : Nat) : Bool := 0x80 ≤ b && b ≤ 0xBF

/-- `str::from_utf8` validity (the standard UTF-8 well-formedness test:
no overlongs, no surrogates, max U+10FFFF). -/
def isValidUtf8 : List Nat → Bool
  | [] => true
  | b :: rest =>
    if b ≤ 0x7F then isValidUtf8 rest
    else if 0xC2 ≤ b && b ≤ 0xDF then
      match rest with
      | c1 :: r => isCont c1 && isValidUtf8 r
      | [] => false
    else if b = 0xE0 then
      match rest with
      | c1 :: c2 :: r =>
        (0xA0 ≤ c1 && c1 ≤ 0xBF) && isCont c2 && isValidUtf8 r
      | _ => false
    else if (0xE1 ≤ b && b ≤ 0xEC) || b = 0xEE || b = 0xEF then
      match rest with
      | c1 :: c2 :: r => isCont c1 && isCont c2 && isValidUtf8 r
      | _ => false
    else if b = 0xED then
      match rest with
      | c1 :: c2 :: r =>
        (0x80 ≤ c1 && c1 ≤ 0x9F) && isCont c2 && isValidUtf8 r
      | _ => false
    else if b = 0xF0 then
      match rest with
      | c1 :: c2 :: c3 :: r =>
        (0x90 ≤ c1 && c1 ≤ 0xBF) && isCont c2 && isCont c3 && isValidUtf8 r
      | _ => false
    else if 0xF1 ≤ b && b ≤ 0xF3 then
      match rest with
      | c1 :: c2 :: c3 :: r =>
        isCont c1 && isCont c2 && isCont c3 && isValidUtf8 r
      | _ => false
    else if b = 0xF4 then
      match rest with
      | c1 :: c2 :: c3 :: r =>
        (0x80 ≤ c1 && c1 ≤ 0x8F) && isCont c2 && isCont c3 && isValidUtf8 r
      | _ => false
    else false

/-- `lookup_addr` (net.rs lines 147-167): call `getnameinfo` into the
fixed `NI_MAXHOST` buffer (failure mapped by `cvt_gai`); on success read
the C string out of the buffer and decode it as UTF-8: a valid string is
returned (as its bytes), an invalid one becomes the generic
`ErrorKind::Other` lookup error. -/
def lookup_addr (r : GaiRet) : Except IOError (List Nat) :=
  match r with
  | .fail code => .error (cvt_gai code)
  | .ok written =>
    let data := cstrBytes (hostbufAfter written)
    if isValidUtf8 data then .ok data
    else .error (.simple .other "failed to lookup address information")

/-! ### TCP streams (net.rs lines 173-249) -/

/-- `TcpStream::connect` (net.rs lines 178-186): create the socket, then
run `libc::connect` through the retrying `cvt_r`.  `sockRes` is the
result of `Socket::new`; `connectTr` the successive results of the
`connect` invocations.  `none` propagates an exhausted retry trace. -/
def tcpStream_connect (sockRes : Except IOError Socket)
    (connectTr : List SysRet) : Option (Except IOError Socket) :=
  match sockRes with
  | .error e => some (.error e)
  | .ok s =>
    match cvt_r connectTr with
    | none => none
    | some (.error e) => some (.error e)
    | some (.ok _) => some (.ok s)

/-- `TcpStream::write` (net.rs lines 212-220): a single `libc::send`
converted by the non-retrying `cvt`; the return value is the count. -/
def tcpStream_write (sendRet : SysRet) : Except IOError Nat :=
  (cvt sendRet).map Int.toNat

/-- `UdpSocket::send_to` (net.rs lines 391-399): a single `libc::sendto`
converted by the non-retrying `cvt`. -/
def udpSocket_send_to (sendtoRet : SysRet) : Except IOError Nat :=
  (cvt sendtoRet).map Int.toNat

/-- `UdpSocket::bind` (net.rs lines 359-366): create the socket, then a
single `libc::bind` converted by the non-retrying `cvt` inside `try!`. -/
def udpSocket_bind (sockRes : Except IOError Socket) (bindRet : SysRet) :
    Except IOError Socket :=
  match sockRes with
  | .error e => .error e
  | .ok s =>
    match cvt bindRet with
    | .error e => .error e
    | .ok _ => .ok s

/-- `TcpListener::bind` at the errno level (net.rs lines 284-304,
non-Windows path): the `try!` chain of socket creation, then
`setsockopt(SO_REUSEADDR)`, `libc::bind` and `libc::listen(.., 128)`,
each syscall's result converted by the non-retrying `cvt`.  (The
Boolean-outcome model `tcpListener_bind` below captures the step order;
this one carries the errnos through the same chain.) -/
def tcpListener_bind_errno (sockRes : Except IOError Socket)
    (reuseRet bindRet listenRet : SysRet) : Except IOError Socket :=
  match sockRes with
  | .error e => .error e
  | .ok s =>
    match cvt reuseRet with
    | .error e => .error e
    | .ok _ =>
      match cvt bindRet with
      | .error e => .error e
      | .ok _ =>
        match cvt listenRet with
        | .error e => .error e
        | .ok _ => .ok s

/-! ### TCP listeners (net.rs lines 279-328) -/

/-- The externally visible steps of `TcpListener::bind`, in the order
the code attempts them. -/
inductive BindEv where
  | socketNew
  | setReuseAddr
  | bindSys
  | listenSys (backlog : Nat)
  deriving DecidableEq, Repr

/-- Success/failure of each syscall `TcpListener::bind` may attempt. -/
structure BindOutcomes where
  socketOk : Bool
  reuseOk : Bool
  bindOk : Bool
  listenOk : Bool
  deriving DecidableEq, Repr

/-- `try!` sequencing for the bind trace: record the attempted step and
continue only on success. -/
def tryStep (ev : BindEv) (ok : Bool) (rest : List BindEv × Bool) :
    List BindEv × Bool :=
  if ok then (ev :: rest.1, rest.2) else ([ev], false)

/-- `TcpListener::bind` (net.rs lines 284-304): create the socket; on
non-Windows (`if !cfg!(windows)`) set `SO_REUSEADDR`; `libc::bind`;
`libc::listen` with backlog 128.  Returns the attempted-step trace and
whether a listener is produced (every step succeeded). -/
def tcpListener_bind (windows : Bool) (o : BindOutcomes) :
    List BindEv × Bool :=
  tryStep .socketNew o.socketOk
    (if windows then
      tryStep .bindSys o.bindOk
        (tryStep (.listenSys 128) o.listenOk ([], true))
    else
      tryStep .setReuseAddr o.reuseOk
        (tryStep .bindSys o.bindOk
          (tryStep (.listenSys 128) o.listenOk ([], true))))

/-- `TcpListener::accept` (net.rs lines 316-323): `Socket::accept` fills
the peer's sockaddr; on success the sockaddr is decoded with
`try!(sockaddr_to_addr ..)` — if that fails, the freshly accepted socket
is dropped (closed) on the early return.  The second component lists the
handles closed by the call. -/
def tcpListener_accept (acceptRes : Except IOError Socket)
    (storage : List Nat) (len : Nat) :
    Outcome (Socket × SocketAddr) × List Socket :=
  match acceptRes with
  | .error e => (.err e, [])
  | .ok sock =>
    match sockaddr_to_addr storage len with
    | .ok a => (.ok (sock, a), [])
    | .err e => (.err e, [sock])
    | .panicked => (.panicked, [sock])

/-! ### UDP sockets (net.rs lines 354-420) -/

/-- A successful `libc::recvfrom`: the returned byte count, the datagram
bytes it wrote into the caller's buffer, and the sender's sockaddr with
its length. -/
structure RecvOk where
  n : Nat
  data : List Nat
  storage : List Nat
  addrlen : Nat
  deriving DecidableEq, Repr

/-- The caller's buffer after `recvfrom` wrote `data` into its front. -/
def bufAfterRecv (buf data : List Nat) : List Nat :=
  data.take buf.length ++ buf.drop (data.take buf.length).length

/-- `UdpSocket::recv_from` (net.rs lines 378-389): the syscall result is
converted by `cvt`; on success the datagram is already in the caller's
buffer and the sender's sockaddr is decoded with `try!` — a decode
failure discards the byte count and returns the error.  The first
component is the buffer after the call. -/
def udpSocket_recv_from (buf : List Nat) (r : Except Nat RecvOk) :
    List Nat × Outcome (Nat × SocketAddr) :=
  match r with
  | .error errno => (buf, .err (.os errno))
  | .ok k =>
    let buf2 := bufAfterRecv buf k.data
    match sockaddr_to_addr k.storage k.addrlen with
    | .ok a => (buf2, .ok (k.n, a))
    | .err e => (buf2, .err e)
    | .panicked => (buf2, .panicked)

/-! ## Theorems -/

/-- Reading a byte past a left part of a concatenation reads the right
part. -/
theorem get8_concat_right (l1 l2 : List Nat) (i : Nat) (h : l1.length ≤ i) :
    get8 (l1 ++ l2) i = get8 l2 (i - l1.length) :=
  List.getD_append_right l1 l2 0 i h

/-- The sixteen bytes written at offset 8 are read back verbatim. -/
theorem addr16_roundtrip (pre addr post : List Nat) (hp : pre.length = 8)
    (ha : addr.length = 16) :
    (List.range 16).map (fun i => get8 (pre ++ addr ++ post) (8 + i)) = addr := by
  apply List.ext_getElem
  · simp [ha]
  · intro i h1 h2
    simp only [List.getElem_map, List.getElem_range]
    rw [List.append_assoc, get8_concat_right pre (addr ++ post) (8 + i) (by omega)]
    unfold get8
    rw [hp, Nat.add_sub_cancel_left, List.getD_append addr post 0 i (by omega)]
    exact List.getD_eq_getElem addr 0 (by omega)

/-- C1: for every valid IPv4 or IPv6 socket address, encoding it into
the OS binary sockaddr representation and decoding that representation
with `sockaddr_to_addr`, at the length the encoder produced, returns
`Ok` of the original address and port. -/
theorem sockaddr_marshal_roundtrip (sa : SocketAddr)
    (h : isValidSockAddr sa = true) :
    sockaddr_to_addr (encodeSockaddr sa) (encodeLen sa) = Outcome.ok sa := by
  cases sa with
  | v4 a b c d port =>
    simp only [encodeSockaddr, encodeLen, sockaddr_to_addr, ss_family, get8,
      AF_INET, AF_INET6, sizeof_sockaddr_in, decode_sockaddr_in, get16be]
    norm_num [List.getD]
    omega
  | v6 addr port flowinfo scope_id =>
    have ha : addr.length = 16 := by
      simp only [isValidSockAddr, Bool.and_eq_true, decide_eq_true_eq] at h
      exact h.1.1.1.1
    simp only [encodeSockaddr, encodeLen, sockaddr_to_addr, ss_family, get8,
      AF_INET, AF_INET6, sizeof_sockaddr_in, sizeof_sockaddr_in6,
      decode_sockaddr_in6, get16be, get32le]
    norm_num [List.getD]
    refine ⟨?_, by omega, by omega, ?_⟩
    · have h2 := addr16_roundtrip
        [10, 0, port / 256, port % 256, flowinfo % 256, flowinfo / 256 % 256,
          flowinfo / 65536 % 256, flowinfo / 16777216] addr
        [scope_id % 256, scope_id / 256 % 256, scope_id / 65536 % 256,
          scope_id / 16777216] (by simp) ha
      simpa [get8, List.getD_eq_getElem?_getD] using h2
    · rw [List.getElem?_append_right (by omega),
        List.getElem?_append_right (by omega),
        List.getElem?_append_right (by omega),
        List.getElem?_append_right (by omega), ha]
      norm_num
      omega

/-- C1 witness: the roundtrip at a concrete IPv4 and IPv6 address. -/
theorem sockaddr_marshal_roundtrip_witness :
    sockaddr_to_addr (encodeSockaddr (SocketAddr.v4 192 168 0 1 8080))
        (encodeLen (SocketAddr.v4 192 168 0 1 8080)) =
      Outcome.ok (SocketAddr.v4 192 168 0 1 8080) ∧
    sockaddr_to_addr
        (encodeSockaddr
          (SocketAddr.v6 [0, 0, 0, 0, 0, 0, 0, 0, 0, 0, 0, 0, 0, 0, 0, 1] 443 5 7))
        (encodeLen
          (SocketAddr.v6 [0, 0, 0, 0, 0, 0, 0, 0, 0, 0, 0, 0, 0, 0, 0, 1] 443 5 7)) =
      Outcome.ok
        (SocketAddr.v6 [0, 0, 0, 0, 0, 0, 0, 0, 0, 0, 0, 0, 0, 0, 0, 1] 443 5 7) :=
  ⟨sockaddr_marshal_roundtrip _ (by decide),
   sockaddr_marshal_roundtrip _ (by decide)⟩

/-- C2: for every storage whose family tag is neither `AF_INET` nor
`AF_INET6`, and every length, `sockaddr_to_addr` returns an error whose
kind is invalid-input. -/
theorem sockaddr_bad_family (storage : List Nat) (len : Nat)
    (h4 : ss_family storage ≠ AF_INET) (h6 : ss_family storage ≠ AF_INET6) :
    sockaddr_to_addr storage len =
      Outcome.err (IOError.simple ErrorKind.invalidInput "invalid argument") ∧
    (IOError.simple ErrorKind.invalidInput "invalid argument").kind =
      ErrorKind.invalidInput := by
  refine ⟨?_, rfl⟩
  simp [sockaddr_to_addr, h4, h6]

/-- C2 witness: a storage with family tag 7 is rejected at length 3. -/
theorem sockaddr_bad_family_witness :
    sockaddr_to_addr [7] 3 =
      Outcome.err (IOError.simple ErrorKind.invalidInput "invalid argument") ∧
    (IOError.simple ErrorKind.invalidInput "invalid argument").kind =
      ErrorKind.invalidInput :=
  sockaddr_bad_family [7] 3 (by decide) (by decide)

/-- C3 counterexample: a buffer with family `AF_INET` passed with length
17, which does not match `size_of::<sockaddr_in>() = 16`, is still
reinterpreted (the call returns `Ok`): the code checks `len >= size`,
not that the length matches the expected size. -/
theorem sockaddr_len_match_cex :
    (17 ≠ sizeof_sockaddr_in) ∧
    sockaddr_to_addr (encodeSockaddr (SocketAddr.v4 127 0 0 1 80)) 17 =
      Outcome.ok (SocketAddr.v4 127 0 0 1 80) := by decide

/-- C3 amended: for the detected family, `sockaddr_to_addr` validates
that the supplied length is at least the size of the family's structure
before reinterpreting the memory; when that check fails the `assert!`
aborts (panic) and no reinterpretation occurs. -/
theorem sockaddr_len_check (storage : List Nat) (len : Nat) :
    (ss_family storage = AF_INET →
      (len < sizeof_sockaddr_in →
        sockaddr_to_addr storage len = Outcome.panicked) ∧
      (sizeof_sockaddr_in ≤ len →
        sockaddr_to_addr storage len =
          Outcome.ok (decode_sockaddr_in storage))) ∧
    (ss_family storage = AF_INET6 →
      (len < sizeof_sockaddr_in6 →
        sockaddr_to_addr storage len = Outcome.panicked) ∧
      (sizeof_sockaddr_in6 ≤ len →
        sockaddr_to_addr storage len =
          Outcome.ok (decode_sockaddr_in6 storage))) := by
  refine ⟨fun hf => ⟨fun hl => ?_, fun hl => ?_⟩,
          fun hf => ⟨fun hl => ?_, fun hl => ?_⟩⟩ <;>
    simp [sockaddr_to_addr, hf, hl, Nat.not_le.mpr hl, AF_INET, AF_INET6]

/-- C3 witness: an `AF_INET`-tagged storage aborts at length 0 and is
decoded at length 16. -/
theorem sockaddr_len_check_witness :
    sockaddr_to_addr [2, 0] 0 = Outcome.panicked ∧
    sockaddr_to_addr [2, 0] 16 = Outcome.ok (decode_sockaddr_in [2, 0]) :=
  ⟨((sockaddr_len_check [2, 0] 0).1 (by decide)).1 (by decide),
   ((sockaddr_len_check [2, 0] 16).1 (by decide)).2 (by decide)⟩

/-- C4 counterexample: `TcpStream::write` converts its single
`libc::send` result with the non-retrying `cvt`, so a syscall failing
with `EINTR` is surfaced to the caller as an interrupted error instead
of being retried. -/
theorem write_eintr_cex :
    tcpStream_write (SysRet.fail EINTR) = Except.error (IOError.os EINTR) ∧
    (IOError.os EINTR).kind = ErrorKind.interrupted :=
  ⟨rfl, by decide⟩

/-- C4 amended: only `TcpStream::connect` runs its syscall through the
retrying `cvt_r`, whose result is never an interrupted error; `write`,
`send_to`, the `bind` syscalls of `UdpSocket::bind` and
`TcpListener::bind`, and the latter's `listen` syscall each run once
through `cvt`, which surfaces every errno — `EINTR` included —
unchanged. -/
theorem eintr_retry_only_connect (tr : List SysRet) (e : IOError) :
    (cvt_r tr = some (Except.error e) → e.kind ≠ ErrorKind.interrupted) ∧
    (∀ en, tcpStream_write (SysRet.fail en) =
      Except.error (IOError.os en)) ∧
    (∀ en, udpSocket_send_to (SysRet.fail en) =
      Except.error (IOError.os en)) ∧
    (∀ s en, udpSocket_bind (Except.ok s) (SysRet.fail en) =
      Except.error (IOError.os en)) ∧
    (∀ s en r2 r3, tcpListener_bind_errno (Except.ok s) (SysRet.fail en)
      r2 r3 = Except.error (IOError.os en)) ∧
    (∀ s n en r3, tcpListener_bind_errno (Except.ok s) (SysRet.ok n)
      (SysRet.fail en) r3 = Except.error (IOError.os en)) ∧
    (∀ s n m en, tcpListener_bind_errno (Except.ok s) (SysRet.ok n)
      (SysRet.ok m) (SysRet.fail en) = Except.error (IOError.os en)) := by
  refine ⟨?_, fun en => rfl, fun en => rfl, fun s en => rfl,
    fun s en r2 r3 => rfl, fun s n en r3 => rfl, fun s n m en => rfl⟩
  induction tr with
  | nil => intro h; simp [cvt_r] at h
  | cons r rest ih =>
    intro h
    cases r with
    | ok n => simp [cvt_r, cvt] at h
    | fail en =>
      simp only [cvt_r, cvt] at h
      split at h
      · exact ih h
      · rename_i hk
        cases h
        exact hk

/-- C4 witness: a connect trace interrupted once then refused surfaces
the refusal, not the interruption; a write, a UDP bind and a listener's
bind and listen steps interrupted once each surface `EINTR`. -/
theorem eintr_retry_only_connect_witness :
    (IOError.os 111).kind ≠ ErrorKind.interrupted ∧
    tcpStream_write (SysRet.fail EINTR) = Except.error (IOError.os EINTR) ∧
    udpSocket_bind (Except.ok (3 : Nat)) (SysRet.fail EINTR) =
      Except.error (IOError.os EINTR) ∧
    tcpListener_bind_errno (Except.ok (3 : Nat)) (SysRet.ok 0)
      (SysRet.fail EINTR) (SysRet.ok 0) = Except.error (IOError.os EINTR) ∧
    tcpListener_bind_errno (Except.ok (3 : Nat)) (SysRet.ok 0)
      (SysRet.ok 0) (SysRet.fail EINTR) = Except.error (IOError.os EINTR) :=
  ⟨(eintr_retry_only_connect [SysRet.fail EINTR, SysRet.fail 111]
      (IOError.os 111)).1 rfl,
   (eintr_retry_only_connect [] (IOError.os 0)).2.1 EINTR,
   (eintr_retry_only_connect [] (IOError.os 0)).2.2.2.1 (3 : Nat) EINTR,
   (eintr_retry_only_connect [] (IOError.os 0)).2.2.2.2.2.1 (3 : Nat) 0 EINTR
     (SysRet.ok 0),
   (eintr_retry_only_connect [] (IOError.os 0)).2.2.2.2.2.2 (3 : Nat) 0 0
     EINTR⟩

/-- C5 counterexample: on a Windows configuration (`cfg!(windows)`), a
fully successful `TcpListener::bind` never performs the reuse-address
step — its trace is create, bind, listen, with no `setReuseAddr`. -/
theorem tcpListener_bind_windows_cex :
    (tcpListener_bind true ⟨true, true, true, true⟩).1 =
      [BindEv.socketNew, BindEv.bindSys, BindEv.listenSys 128] ∧
    BindEv.setReuseAddr ∉ (tcpListener_bind true ⟨true, true, true, true⟩).1 := by
  decide

/-- C5 amended: on non-Windows configurations, `TcpListener::bind`
creates a socket, enables the address-reuse option before binding, binds,
then listens with the fixed backlog 128; it reports success exactly when
every step succeeds, in which case its trace is exactly that sequence,
and whenever the bind step is attempted the reuse step was attempted
before it. -/
theorem tcpListener_bind_seq (o : BindOutcomes) :
    ((tcpListener_bind false o).2 = true ↔
      o.socketOk = true ∧ o.reuseOk = true ∧ o.bindOk = true ∧
        o.listenOk = true) ∧
    ((tcpListener_bind false o).2 = true →
      (tcpListener_bind false o).1 =
        [BindEv.socketNew, BindEv.setReuseAddr, BindEv.bindSys,
         BindEv.listenSys 128]) ∧
    (BindEv.bindSys ∈ (tcpListener_bind false o).1 →
      (tcpListener_bind false o).1.indexOf BindEv.setReuseAddr <
        (tcpListener_bind false o).1.indexOf BindEv.bindSys) := by
  rcases o with ⟨s, r, b, l⟩
  cases s <;> cases r <;> cases b <;> cases l <;> decide

/-- C5 witness: the all-successful non-Windows bind produces the full
trace. -/
theorem tcpListener_bind_seq_witness :
    (tcpListener_bind false ⟨true, true, true, true⟩).1 =
      [BindEv.socketNew, BindEv.setReuseAddr, BindEv.bindSys,
       BindEv.listenSys 128] :=
  (tcpListener_bind_seq ⟨true, true, true, true⟩).2.1 (by decide)

/-- C6: iterating a `LookupHost` yields exactly one element per entry of
the resolver list, in list order, each element being the (independent)
decode of that entry's sockaddr; a failing element still advances the
cursor to the next entry, and once the cursor is exhausted `next` yields
`None` with an unchanged state, hence `None` forever. -/
theorem lookupHost_iteration (orig l : List AddrInfoEnt) :
    LookupHost.collect ⟨orig, l⟩ =
      l.map (fun e => sockaddr_to_addr e.ai_addr e.ai_addrlen) ∧
    (∀ e rest, LookupHost.next ⟨orig, e :: rest⟩ =
      (some (sockaddr_to_addr e.ai_addr e.ai_addrlen), ⟨orig, rest⟩)) ∧
    (∀ n, LookupHost.iterate n ⟨orig, []⟩ = ⟨orig, []⟩ ∧
      (LookupHost.next ⟨orig, []⟩).1 = none) := by
  refine ⟨?_, fun e rest => rfl, fun n => ⟨?_, rfl⟩⟩
  · unfold LookupHost.collect
    induction l with
    | nil => rfl
    | cons e rest ih =>
      simpa [LookupHost.collectFuel, LookupHost.next] using ih
  · induction n with
    | zero => rfl
    | succ n ih => exact ih

/-- C6 witness: a two-entry list, the first entry of an unknown family,
still yields the second entry's address. -/
theorem lookupHost_iteration_witness :
    LookupHost.collect ⟨[⟨[7], 16⟩, ⟨[2, 0, 0, 80, 127, 0, 0, 1], 16⟩],
        [⟨[7], 16⟩, ⟨[2, 0, 0, 80, 127, 0, 0, 1], 16⟩]⟩ =
      [Outcome.err (IOError.simple ErrorKind.invalidInput "invalid argument"),
       Outcome.ok (SocketAddr.v4 127 0 0 1 80)] := by
  rw [(lookupHost_iteration [⟨[7], 16⟩, ⟨[2, 0, 0, 80, 127, 0, 0, 1], 16⟩]
    [⟨[7], 16⟩, ⟨[2, 0, 0, 80, 127, 0, 0, 1], 16⟩]).1]
  decide

/-- C7: any number of `next` calls changes only the `cur` cursor — the
state after `n` calls is the original head pointer together with the
cursor advanced by `n` — and destruction then releases exactly the
OS-allocated list headed by `original`, however much was consumed. -/
theorem lookupHost_frame (lh : LookupHost) (n : Nat) :
    LookupHost.iterate n lh = ⟨lh.original, lh.cur.drop n⟩ ∧
    LookupHost.dropFrees (LookupHost.iterate n lh) = lh.original := by
  have h : ∀ m : Nat, ∀ x : LookupHost,
      LookupHost.iterate m x = ⟨x.original, x.cur.drop m⟩ := by
    intro m
    induction m with
    | zero => intro x; rfl
    | succ m ih =>
      intro x
      rcases x with ⟨orig, cur⟩
      cases cur with
      | nil =>
        simp only [LookupHost.iterate, LookupHost.next, ih, List.drop_nil]
      | cons e rest =>
        simp only [LookupHost.iterate, LookupHost.next, ih, List.drop_succ_cons]
  refine ⟨h n lh, ?_⟩
  rw [h n lh]
  rfl

/-- C8: `lookup_addr` resolves into a fixed buffer of `NI_MAXHOST = 1025`
bytes; a resolver failure surfaces the resolver-specific error; on
success the buffer's C string is decoded as UTF-8 and returned, and a
decode failure yields the generic `Other`-kind lookup error — which is
neither an invalid-input error nor a resolver-specific one. -/
theorem lookup_addr_spec (w : List Nat) (code : Int) :
    NI_MAXHOST = 1025 ∧
    (hostbufAfter w).length = NI_MAXHOST ∧
    lookup_addr (GaiRet.fail code) = Except.error (IOError.gai code) ∧
    (isValidUtf8 (cstrBytes (hostbufAfter w)) = true →
      lookup_addr (GaiRet.ok w) = Except.ok (cstrBytes (hostbufAfter w))) ∧
    (isValidUtf8 (cstrBytes (hostbufAfter w)) = false →
      lookup_addr (GaiRet.ok w) =
        Except.error (IOError.simple ErrorKind.other
          "failed to lookup address information") ∧
      (IOError.simple ErrorKind.other
        "failed to lookup address information").kind ≠
          ErrorKind.invalidInput ∧
      ∀ c : Int, IOError.simple ErrorKind.other
        "failed to lookup address information" ≠ IOError.gai c) := by
  refine ⟨rfl, ?_, rfl, fun hv => ?_, fun hv => ⟨?_, by decide, fun c => by simp⟩⟩
  · rw [hostbufAfter, List.length_take, List.length_append,
      List.length_replicate]
    simp only [NI_MAXHOST]
    omega
  · simp [lookup_addr, hv]
  · simp [lookup_addr, hv]

/-- C8 witness: the bytes `"hi"` decode; the lone byte 255 is invalid
UTF-8 and produces the generic lookup error. -/
theorem lookup_addr_spec_witness :
    lookup_addr (GaiRet.ok [104, 105]) = Except.ok [104, 105] ∧
    lookup_addr (GaiRet.ok [255]) =
      Except.error (IOError.simple ErrorKind.other
        "failed to lookup address information") := by
  refine ⟨?_, ((lookup_addr_spec [255] 0).2.2.2.2 (by decide)).1⟩
  have h := (lookup_addr_spec [104, 105] 0).2.2.2.1 (by decide)
  rw [h]
  rfl

/-- C9: when the `getsockopt` syscall succeeds but the length the OS
wrote back differs from `size_of::<T>()`, the function does not return —
the `assert_eq!` aborts; when the length matches it returns `Ok` of the
value the OS stored. -/
theorem getsockopt_len_assert (sizeofT : Nat) (ret : SysRet)
    (lenAfter : Nat) (slot : Int) :
    (∀ n, ret = SysRet.ok n → lenAfter ≠ sizeofT →
      getsockopt sizeofT ret lenAfter slot = Outcome.panicked) ∧
    (∀ n, ret = SysRet.ok n → lenAfter = sizeofT →
      getsockopt sizeofT ret lenAfter slot = Outcome.ok slot) := by
  constructor <;> rintro n rfl h <;> simp [getsockopt, cvt, h]

/-- C9 witness: a successful syscall writing back length 8 for a 4-byte
type aborts; writing back 4 returns the value. -/
theorem getsockopt_len_assert_witness :
    getsockopt 4 (SysRet.ok 0) 8 7 = Outcome.panicked ∧
    getsockopt 4 (SysRet.ok 0) 4 7 = Outcome.ok 7 :=
  ⟨(getsockopt_len_assert 4 (SysRet.ok 0) 8 7).1 0 rfl (by decide),
   (getsockopt_len_assert 4 (SysRet.ok 0) 4 7).2 0 rfl rfl⟩

/-- C10: when the `recvfrom` syscall succeeds but the sender's sockaddr
has a family other than IPv4/IPv6, `recv_from` returns the invalid-input
error — discarding the byte count even though the datagram's bytes are
already in the caller's buffer; likewise, when a sockaddr of such a
family accompanies a successfully accepted connection, `accept` returns
the error and the accepted socket is closed rather than returned. -/
theorem bad_family_discards (buf : List Nat) (k : RecvOk) (sock : Socket)
    (storage : List Nat) (len : Nat)
    (h4 : ss_family k.storage ≠ AF_INET) (h6 : ss_family k.storage ≠ AF_INET6)
    (g4 : ss_family storage ≠ AF_INET) (g6 : ss_family storage ≠ AF_INET6) :
    udpSocket_recv_from buf (Except.ok k) =
      (bufAfterRecv buf k.data,
       Outcome.err (IOError.simple ErrorKind.invalidInput "invalid argument")) ∧
    tcpListener_accept (Except.ok sock) storage len =
      (Outcome.err (IOError.simple ErrorKind.invalidInput "invalid argument"),
       [sock]) := by
  constructor
  · simp [udpSocket_recv_from, sockaddr_to_addr, h4, h6]
  · simp [tcpListener_accept, sockaddr_to_addr, g4, g6]

/-- C10 witness: a 3-byte datagram from a family-7 sender is dropped
with an invalid-input error while the bytes sit in the buffer; an
accepted socket with a family-9 peer sockaddr is closed. -/
theorem bad_family_discards_witness :
    udpSocket_recv_from [0, 0, 0, 0] (Except.ok ⟨3, [1, 2, 3], [7], 16⟩) =
      ([1, 2, 3, 0],
       Outcome.err (IOError.simple ErrorKind.invalidInput "invalid argument")) ∧
    tcpListener_accept (Except.ok (5 : Nat)) [9] 28 =
      (Outcome.err (IOError.simple ErrorKind.invalidInput "invalid argument"),
       [(5 : Nat)]) := by
  have h := bad_family_discards [0, 0, 0, 0] ⟨3, [1, 2, 3], [7], 16⟩ (5 : Nat)
    [9] 28 (by decide) (by decide) (by decide) (by decide)
  rw [h.1, h.2]
  constructor
  · rfl
  · rfl

end Net


